import Mathlib

/-!
# Resonance — verification of the transcription orchestration core

Shallow embedding of the job orchestration logic of the Resonance app:

* `src/whisper.js` — `ensureEnvironment` (environment provisioner) and
  `transcribe` (job executor: engine spawn, progress relay, and the
  `close`-handler that reconciles artifacts and resolves success/failure);
* `src/main.js` — the `transcribe` IPC handler (progress event relay to the
  renderer, destination-directory relocation, top-level error capture);
* the renderer's `getSelectedFormats` (format defaulting at submission).

Files live at six derived paths in the engine's output directory
(`<base>.srt`, `.txt`, `.md`, `.vtt`, `.tsv`, `.json`); the filesystem is
modelled as the contents at those paths.  The engine process is opaque: its
exit code, the files it left on disk, its parsed progress percentages and its
captured stderr are parameters of the model.
-/

namespace Resonance

/-- Output formats selectable in the UI: `'srt'` (subtitle), `'txt'`
(plaintext), `'md'` (markdown).  Mirrors the JS string literals. -/
inductive Format where
  | srt
  | txt
  | md
  deriving DecidableEq, Repr

/-- The engine's output directory restricted to the six derived paths
`<base>.srt/.txt/.md/.vtt/.tsv/.json` (whisper.js lines 186–191).
`none` = the file does not exist; `some s` = the file exists with content
`s`. -/
structure FS where
  srt : Option String
  txt : Option String
  md : Option String
  vtt : Option String
  tsv : Option String
  json : Option String
  deriving DecidableEq, Repr

/-- The result object resolved by `transcribe` on success
(whisper.js lines 211–216): each field is `true` when the corresponding
path field of the JS result is non-null. -/
structure TResult where
  srtPath : Bool
  txtPath : Bool
  mdPath : Bool
  deriving DecidableEq, Repr

/-- `--output_format` argument selection (whisper.js lines 123–135):
`all` when both txt-deriving and srt formats are needed, else `srt`,
else `txt`, defaulting to `srt` for an empty format list. -/
def outputFormat (formats : List Format) : String :=
  let needsTxt := formats.contains Format.txt || formats.contains Format.md
  let needsSrt := formats.contains Format.srt
  if needsTxt && needsSrt then "all"
  else if needsSrt then "srt"
  else if needsTxt then "txt"
  else "srt"

/-- The markdown template applied when synthesizing `<base>.md` from
`<base>.txt` (whisper.js line 196). -/
def mdTemplate (fileName text : String) : String :=
  "# Transcription\n\n**File:** " ++ fileName ++ "\n\n---\n\n" ++ text

/-- Step 1 of the `close` handler (whisper.js lines 194–198): if markdown was
requested and the plaintext file exists, write the markdown file from the
template. -/
def synthesizeMd (formats : List Format) (fileName : String) (fs : FS) : FS :=
  if formats.contains Format.md && fs.txt.isSome then
    { fs with md := some (mdTemplate fileName (fs.txt.getD "")) }
  else fs

/-- Step 2 of the `close` handler (whisper.js lines 201–206): delete the
subtitle/plaintext file when its format was not requested, and always delete
the `.vtt`, `.tsv` and `.json` files. -/
def cleanup (formats : List Format) (fs : FS) : FS :=
  { fs with
    srt := if formats.contains Format.srt then fs.srt else none
    txt := if formats.contains Format.txt then fs.txt else none
    vtt := none
    tsv := none
    json := none }

/-- Step 3 of the `close` handler (whisper.js lines 208–219): success iff the
exit code is 0 or the (post-cleanup) subtitle or plaintext file exists; on
success each result path is non-null iff its format was requested and its
file exists; on failure reject with the captured stderr. -/
def resolveOutcome (formats : List Format) (code : Int) (stderr : String)
    (fs : FS) : Except String TResult :=
  if code = 0 || fs.srt.isSome || fs.txt.isSome then
    Except.ok
      { srtPath := formats.contains Format.srt && fs.srt.isSome
        txtPath := formats.contains Format.txt && fs.txt.isSome
        mdPath := formats.contains Format.md && fs.md.isSome }
  else
    Except.error ("Transcription failed: " ++ (if stderr = "" then "Unknown error" else stderr))

/-- The whole `close` handler of `transcribe` (whisper.js lines 182–220),
run on the disk state `fs` left behind by the engine process: markdown
synthesis, then cleanup of unwanted files, then success/failure resolution.
Returns the final disk state together with the outcome. -/
def closeHandler (formats : List Format) (fileName : String) (code : Int)
    (stderr : String) (fs : FS) : FS × Except String TResult :=
  let fs1 := synthesizeMd formats fileName fs
  let fs2 := cleanup formats fs1
  (fs2, resolveOutcome formats code stderr fs2)

/-- An empty output directory. -/
def emptyFS : FS :=
  { srt := none, txt := none, md := none, vtt := none, tsv := none, json := none }

/-- Whether at least one requested format's artifact file is present in the
given disk state (the success criterion the spec states for reconciliation). -/
def requestedArtifactPresent (formats : List Format) (fs : FS) : Bool :=
  (formats.contains Format.srt && fs.srt.isSome) ||
  (formats.contains Format.txt && fs.txt.isSome) ||
  (formats.contains Format.md && fs.md.isSome)

/-- Renderer format selection (renderer `getSelectedFormats`): collect the
checked format checkboxes; default to `[srt]` when none is checked. -/
def getSelectedFormats (srtChecked txtChecked mdChecked : Bool) : List Format :=
  let formats :=
    (if srtChecked then [Format.srt] else []) ++
    (if txtChecked then [Format.txt] else []) ++
    (if mdChecked then [Format.md] else [])
  if formats.length > 0 then formats else [Format.srt]

deriving instance DecidableEq for Except

/-- Whether an `Except` outcome is a success (a JS promise that resolved
rather than rejected). -/
def exceptOk {ε α : Type} : Except ε α → Bool
  | Except.ok _ => true
  | Except.error _ => false

/-! ## Environment provisioner (`ensureEnvironment`, whisper.js lines 50–102)

The filesystem state the provisioner touches: the `whisper-env` data
directory, the `venv` directory inside it, the venv's python executable
(the resolved engine entry point, whose existence is the cached-readiness
check), and whether the engine package (`openai-whisper`) is installed into
the venv. -/

/-- Filesystem state of the provisioner's installation. -/
structure EnvFS where
  whisperDir : Bool
  venvDir : Bool
  pythonBin : Bool
  whisperPkg : Bool
  deriving DecidableEq, Repr

/-- Outcome of the external commands the provisioner shells out to:
prerequisite checks (`python3 --version`, `ffmpeg -version`) and the
installation steps (`python3 -m venv`, `pip install --upgrade pip`,
`pip install openai-whisper`, the latter with its 10-minute timeout
counted as failure). -/
structure EnvWorld where
  python3Ok : Bool
  ffmpegOk : Bool
  venvCreateOk : Bool
  pipUpgradeOk : Bool
  pipInstallOk : Bool
  deriving DecidableEq, Repr

/-- Filesystem-writing steps the provisioner can perform, in order of
appearance in the source. -/
inductive EnvAction where
  | mkdirWhisperDir
  | venvCreate
  | pipUpgrade
  | pipInstall
  | rmVenv
  deriving DecidableEq, Repr

/-- What one call to `ensureEnvironment` produced: the final filesystem
state, the returned/thrown outcome, the filesystem-writing steps performed,
and the `onStatus` messages emitted. -/
structure EnvResult where
  fs : EnvFS
  outcome : Except String Bool
  actions : List EnvAction
  statuses : List String
  deriving DecidableEq, Repr

/-- Rollback in the `catch` block (whisper.js line 99): remove the venv
directory recursively (the python executable and installed package live
inside it); the outer `whisper-env` directory is not touched. -/
def rmVenv (fs : EnvFS) : EnvFS :=
  { fs with venvDir := false, pythonBin := false, whisperPkg := false }

/-- `ensureEnvironment` (whisper.js lines 50–102): return immediately when
the venv python executable exists; otherwise create the data directory,
check the `python3` and `ffmpeg` prerequisites (each missing one throws a
distinct error before any install step), then create the venv and
pip-install the engine package, deleting the venv on any install failure
before rethrowing.  A failed venv creation is modelled as leaving a
partially created venv directory behind, which the rollback removes. -/
def ensureEnvironment (w : EnvWorld) (fs : EnvFS) : EnvResult :=
  if fs.pythonBin then
    { fs := fs, outcome := Except.ok true, actions := [], statuses := [] }
  else
    let fs := { fs with whisperDir := true }
    if ¬ w.python3Ok then
      { fs := fs
        outcome := Except.error "Python 3 not found. Please install Python 3.9+ from python.org or via Homebrew."
        actions := [EnvAction.mkdirWhisperDir], statuses := [] }
    else if ¬ w.ffmpegOk then
      { fs := fs
        outcome := Except.error "FFmpeg not found. Residency requires FFmpeg for media processing. Please install it (e.g., brew install ffmpeg)."
        actions := [EnvAction.mkdirWhisperDir], statuses := [] }
    else
      let st1 := ["Setting up Python environment (first run)..."]
      if ¬ w.venvCreateOk then
        { fs := rmVenv { fs with venvDir := true }
          outcome := Except.error "Failed to set up whisper: venv creation failed"
          actions := [EnvAction.mkdirWhisperDir, EnvAction.venvCreate, EnvAction.rmVenv]
          statuses := st1 }
      else
        let fs := { fs with venvDir := true, pythonBin := true }
        let st2 := st1 ++ ["Installing whisper (this may take a few minutes)..."]
        if ¬ w.pipUpgradeOk then
          { fs := rmVenv fs
            outcome := Except.error "Failed to set up whisper: pip upgrade failed"
            actions := [EnvAction.mkdirWhisperDir, EnvAction.venvCreate, EnvAction.pipUpgrade, EnvAction.rmVenv]
            statuses := st2 }
        else if ¬ w.pipInstallOk then
          { fs := rmVenv fs
            outcome := Except.error "Failed to set up whisper: whisper install failed"
            actions := [EnvAction.mkdirWhisperDir, EnvAction.venvCreate, EnvAction.pipUpgrade, EnvAction.pipInstall, EnvAction.rmVenv]
            statuses := st2 }
        else
          { fs := { fs with whisperPkg := true }
            outcome := Except.ok true
            actions := [EnvAction.mkdirWhisperDir, EnvAction.venvCreate, EnvAction.pipUpgrade, EnvAction.pipInstall]
            statuses := st2 }

/-! ## Destination-directory relocation (main.js lines 119–140)

After a successful `transcribe` with a custom output directory differing
from the engine's working directory, each artifact named in the result is
copied to the destination and the original unlinked, in order
subtitle, plaintext, markdown; a throwing `copyFileSync` is caught by the
handler's outer `catch`, which returns a failure result. -/

/-- Presence of the artifact files at their original (engine-side) and
destination paths. -/
structure DestFS where
  srcSrt : Bool
  srcTxt : Bool
  srcMd : Bool
  dstSrt : Bool
  dstTxt : Bool
  dstMd : Bool
  deriving DecidableEq, Repr

/-- Whether each `copyFileSync` call would succeed. -/
structure CopyWorld where
  srtOk : Bool
  txtOk : Bool
  mdOk : Bool
  deriving DecidableEq, Repr

/-- The relocation block of the `transcribe` IPC handler
(main.js lines 119–140): for each non-null result path, copy the file to
the destination then unlink the original; a copy failure throws, reaching
the outer `catch` (main.js lines 143–152) which returns
`{success: false, error}` — later artifacts are not touched. -/
def relocate (w : CopyWorld) (r : TResult) (fs : DestFS) :
    DestFS × Except String TResult :=
  if r.srtPath && ¬ w.srtOk then
    (fs, Except.error "copy of subtitle artifact failed")
  else
    let fs := if r.srtPath then { fs with dstSrt := true, srcSrt := false } else fs
    if r.txtPath && ¬ w.txtOk then
      (fs, Except.error "copy of plaintext artifact failed")
    else
      let fs := if r.txtPath then { fs with dstTxt := true, srcTxt := false } else fs
      if r.mdPath && ¬ w.mdOk then
        (fs, Except.error "copy of markdown artifact failed")
      else
        let fs := if r.mdPath then { fs with dstMd := true, srcMd := false } else fs
        (fs, Except.ok r)

/-! ## Progress event stream

Events relayed to the renderer on the `transcription-progress` channel for
one job.  Sources of events, in program order:

* `onStatus` messages emitted by `ensureEnvironment` are relayed by the
  IPC handler with `progress: 0` (main.js lines 101–107);
* whisper.js line 114: `progress: 10` (`Starting transcription...`) right
  after the environment is ready;
* whisper.js line 151: `progress: 30` (`Transcribing...`) at engine spawn;
* whisper.js lines 174–179: for each stderr chunk matching the
  `(\d+)%\|` pattern with percentage `p`, `progress: 30 + p * 0.65`;
* whisper.js line 209: `progress: 100` (`Completed`) on success;
* on an environment error, whisper.js line 227 emits `progress: 0`
  (`Failed`) and rethrows, and the IPC handler's catch (main.js
  lines 143–152) emits a second `progress: 0` event;
* on an engine failure (the promise's `reject`), only the IPC handler's
  catch fires (the `try` of whisper.js does not intercept the rejection of
  the promise it returns), emitting one `progress: 0` event;
* when `transcribe` resolves success but the destination relocation
  (main.js lines 119–140) then throws on a copy, the same catch
  (main.js lines 143–152) emits a final `progress: 0` Failed event —
  after the `progress: 100` event already sent at whisper.js line 209,
  and the handler returns failure, so the job terminates Failed having
  emitted 100. -/

/-- Which code site emitted a progress event. -/
inductive Phase where
  | provisioning
  | starting
  | engineStart
  | engine
  | completed
  | failed
  deriving DecidableEq, Repr

/-- One `transcription-progress` event: its emitting phase and the
`progress` field. -/
structure Event where
  phase : Phase
  progress : ℚ
  deriving DecidableEq, Repr

/-- The progress value reported for an engine-parsed percentage `p`
(whisper.js line 177): `30 + p * 0.65`. -/
def engineProgress (p : ℕ) : ℚ :=
  30 + (p : ℚ) * 0.65

/-- The engine-execution events for the parsed percentage sequence. -/
def engineEvents (pcts : List ℕ) : List Event :=
  pcts.map (fun p => { phase := Phase.engine, progress := engineProgress p })

/-- How a job run ended: environment provisioning failed; the engine run
failed; the engine run succeeded but the destination relocation then threw
on a copy; or everything succeeded. -/
inductive RunKind where
  | envFailed
  | engineFailed
  | relocationFailed
  | completed
  deriving DecidableEq, Repr

/-- The full event sequence one job emits on its progress channel, given
the provisioner's `onStatus` messages, the parsed engine percentage
sequence, and how the run ended. -/
def jobEvents (envStatuses : List String) (pcts : List ℕ) : RunKind → List Event
  | RunKind.envFailed =>
      envStatuses.map (fun _ => { phase := Phase.provisioning, progress := 0 }) ++
      [{ phase := Phase.failed, progress := 0 }, { phase := Phase.failed, progress := 0 }]
  | RunKind.engineFailed =>
      envStatuses.map (fun _ => { phase := Phase.provisioning, progress := 0 }) ++
      { phase := Phase.starting, progress := 10 } ::
      { phase := Phase.engineStart, progress := 30 } ::
      (engineEvents pcts ++ [{ phase := Phase.failed, progress := 0 }])
  | RunKind.relocationFailed =>
      envStatuses.map (fun _ => { phase := Phase.provisioning, progress := 0 }) ++
      { phase := Phase.starting, progress := 10 } ::
      { phase := Phase.engineStart, progress := 30 } ::
      (engineEvents pcts ++
        [{ phase := Phase.completed, progress := 100 },
         { phase := Phase.failed, progress := 0 }])
  | RunKind.completed =>
      envStatuses.map (fun _ => { phase := Phase.provisioning, progress := 0 }) ++
      { phase := Phase.starting, progress := 10 } ::
      { phase := Phase.engineStart, progress := 30 } ::
      (engineEvents pcts ++ [{ phase := Phase.completed, progress := 100 }])

/-- The progress values of an event list, in emission order. -/
def progressSeq (events : List Event) : List ℚ :=
  events.map Event.progress

/-! ## Concurrent calls to `ensureEnvironment`

`ensureEnvironment` is `async` with exactly one suspension point before the
installation work: the `await fs.promises.mkdir(...)` (whisper.js line 59).
Everything before it (the `existsSync(pythonBin)` cached check) and
everything after it (prerequisite checks and the `execSync` install block)
run synchronously, hence atomically with respect to the event loop.  Two
concurrent callers are modelled as two tasks, each advancing in these two
atomic segments, interleaved by a scheduler. -/

/-- Program counter of one `ensureEnvironment` call: not yet started,
suspended at the `mkdir` await (after having seen a missing cached
executable), or finished (recording whether this call ran the install
block). -/
inductive TaskPC where
  | start
  | awaitMkdir
  | done (installed : Bool)
  deriving DecidableEq, Repr

/-- Shared state of two concurrent `ensureEnvironment` calls (all external
commands succeeding): whether the venv python executable exists, how many
install attempts have run, and each task's program counter. -/
structure ConcState where
  pythonBin : Bool
  installCount : ℕ
  taskA : TaskPC
  taskB : TaskPC
  deriving DecidableEq, Repr

/-- Advance one task by one atomic segment.  From `start`: run the cached
check; if the executable exists, return immediately, otherwise suspend at
the `mkdir` await.  From `awaitMkdir`: resume and run the prerequisite
checks plus the whole synchronous install block (the code does not re-check
the cached path after resuming).  Returns the new program counter, the new
`pythonBin` flag, and whether an install attempt ran. -/
def stepTask (pythonBin : Bool) : TaskPC → TaskPC × Bool × Bool
  | TaskPC.start =>
      if pythonBin then (TaskPC.done false, pythonBin, false)
      else (TaskPC.awaitMkdir, pythonBin, false)
  | TaskPC.awaitMkdir => (TaskPC.done true, true, true)
  | TaskPC.done b => (TaskPC.done b, pythonBin, false)

/-- One scheduler step: advance task B when `pickB`, else task A. -/
def schedStep (s : ConcState) (pickB : Bool) : ConcState :=
  if pickB then
    let (pc, py, inst) := stepTask s.pythonBin s.taskB
    { s with taskB := pc, pythonBin := py
             installCount := s.installCount + (if inst then 1 else 0) }
  else
    let (pc, py, inst) := stepTask s.pythonBin s.taskA
    { s with taskA := pc, pythonBin := py
             installCount := s.installCount + (if inst then 1 else 0) }

/-- Run a schedule (a list of task picks) from a state. -/
def runSched (sched : List Bool) (s : ConcState) : ConcState :=
  sched.foldl schedStep s

/-- Both callers arrive before any environment exists. -/
def initConcState : ConcState :=
  { pythonBin := false, installCount := 0
    taskA := TaskPC.start, taskB := TaskPC.start }

/-! ## Concrete disk states used as test fixtures -/

/-- Engine produced only a plaintext file. -/
def fsTxtOnly : FS := { emptyFS with txt := some "transcript body" }

/-- A stale markdown file from an earlier run; the engine produced nothing. -/
def fsStaleMd : FS := { emptyFS with md := some "stale markdown" }

/-- Engine produced only a subtitle file. -/
def fsSrtOnly : FS := { emptyFS with srt := some "subtitle data" }

/-- Engine produced subtitle and plaintext files. -/
def fsSrtTxt : FS := { emptyFS with srt := some "subtitle data", txt := some "transcript body" }

/-- Files pre-existing at every derived path before the job ran. -/
def fsPreexisting : FS :=
  { srt := some "old srt", txt := some "old txt", md := none
    vtt := some "old vtt", tsv := some "old tsv", json := some "old json" }

/-- No environment installed at all. -/
def envAbsent : EnvFS :=
  { whisperDir := false, venvDir := false, pythonBin := false, whisperPkg := false }

/-- All external commands succeed. -/
def envWorldAllOk : EnvWorld :=
  { python3Ok := true, ffmpegOk := true, venvCreateOk := true
    pipUpgradeOk := true, pipInstallOk := true }

/-- Prerequisites are fine but the engine-package install fails (or times
out). -/
def envWorldInstallFails : EnvWorld :=
  { python3Ok := true, ffmpegOk := true, venvCreateOk := true
    pipUpgradeOk := true, pipInstallOk := false }

/-- Every destination copy succeeds. -/
def copyAllOk : CopyWorld := { srtOk := true, txtOk := true, mdOk := true }

/-- The plaintext copy to the destination fails. -/
def copyTxtFails : CopyWorld := { srtOk := true, txtOk := false, mdOk := true }

/-- A result naming all three artifacts. -/
def allArtifacts : TResult := { srtPath := true, txtPath := true, mdPath := true }

/-- Originals of all three artifacts on disk, destination empty. -/
def destStart : DestFS :=
  { srcSrt := true, srcTxt := true, srcMd := true
    dstSrt := false, dstTxt := false, dstMd := false }

/-! ## Helper lemmas about the artifact reconciliation steps -/

theorem synthesizeMd_srt (formats : List Format) (n : String) (fs : FS) :
    (synthesizeMd formats n fs).srt = fs.srt := by
  unfold synthesizeMd; split <;> rfl

theorem synthesizeMd_txt (formats : List Format) (n : String) (fs : FS) :
    (synthesizeMd formats n fs).txt = fs.txt := by
  unfold synthesizeMd; split <;> rfl

theorem synthesizeMd_md_isSome (formats : List Format) (n : String) (fs : FS) :
    (synthesizeMd formats n fs).md.isSome =
      ((formats.contains Format.md && fs.txt.isSome) || fs.md.isSome) := by
  unfold synthesizeMd
  split
  · next h => rw [h]; simp
  · next h =>
      have h' : (formats.contains Format.md && fs.txt.isSome) = false := eq_false_of_ne_true h
      rw [h']; simp

theorem cleanup_srt (formats : List Format) (fs : FS) :
    (cleanup formats fs).srt = if formats.contains Format.srt then fs.srt else none := rfl

theorem cleanup_txt (formats : List Format) (fs : FS) :
    (cleanup formats fs).txt = if formats.contains Format.txt then fs.txt else none := rfl

theorem cleanup_md (formats : List Format) (fs : FS) :
    (cleanup formats fs).md = fs.md := rfl

theorem closeHandler_fst (formats : List Format) (n : String) (code : Int)
    (stderr : String) (fs : FS) :
    (closeHandler formats n code stderr fs).1 = cleanup formats (synthesizeMd formats n fs) := rfl

theorem closeHandler_snd (formats : List Format) (n : String) (code : Int)
    (stderr : String) (fs : FS) :
    (closeHandler formats n code stderr fs).2 =
      resolveOutcome formats code stderr (cleanup formats (synthesizeMd formats n fs)) := rfl

theorem exceptOk_resolveOutcome (formats : List Format) (code : Int)
    (stderr : String) (fs : FS) :
    exceptOk (resolveOutcome formats code stderr fs) =
      (decide (code = 0) || fs.srt.isSome || fs.txt.isSome) := by
  unfold resolveOutcome
  split
  · next h => simp [exceptOk, h]
  · next h => simp [exceptOk, eq_false_of_ne_true h]

theorem closeHandler_fst_srt (formats : List Format) (n : String) (code : Int)
    (stderr : String) (fs : FS) :
    (closeHandler formats n code stderr fs).1.srt =
      if formats.contains Format.srt then fs.srt else none := by
  rw [closeHandler_fst, cleanup_srt, synthesizeMd_srt]

theorem closeHandler_fst_txt (formats : List Format) (n : String) (code : Int)
    (stderr : String) (fs : FS) :
    (closeHandler formats n code stderr fs).1.txt =
      if formats.contains Format.txt then fs.txt else none := by
  rw [closeHandler_fst, cleanup_txt, synthesizeMd_txt]

theorem exceptOk_closeHandler (formats : List Format) (n : String) (code : Int)
    (stderr : String) (fs : FS) :
    exceptOk (closeHandler formats n code stderr fs).2 =
      (decide (code = 0) ||
        (formats.contains Format.srt && fs.srt.isSome) ||
        (formats.contains Format.txt && fs.txt.isSome)) := by
  rw [closeHandler_snd, exceptOk_resolveOutcome, cleanup_srt, cleanup_txt,
    synthesizeMd_srt, synthesizeMd_txt]
  by_cases h1 : Format.srt ∈ formats <;>
    by_cases h2 : Format.txt ∈ formats <;> simp [h1, h2]

theorem resolveOutcome_ok_eq (formats : List Format) (code : Int) (stderr : String)
    (fs : FS) (r : TResult) (h : resolveOutcome formats code stderr fs = Except.ok r) :
    r = { srtPath := formats.contains Format.srt && fs.srt.isSome
          txtPath := formats.contains Format.txt && fs.txt.isSome
          mdPath := formats.contains Format.md && fs.md.isSome } := by
  unfold resolveOutcome at h
  split at h
  · injection h with h'
    exact h'.symm
  · exact Except.noConfusion h

/-! ## C1 — success criterion of the close handler -/

/-- C1, counterexample.  The claim says completion is declared whenever at
least one requested artifact file is present on disk after reconciliation.
Concrete refutation: a markdown-only job whose engine exited with code 1
after producing a plaintext file — reconciliation synthesizes the requested
markdown artifact (present on disk afterwards), yet the job is rejected. -/
theorem C1_counterexample :
    requestedArtifactPresent [Format.md]
      (closeHandler [Format.md] "audio.mp3" 1 "engine diagnostics" fsTxtOnly).1 = true ∧
    exceptOk (closeHandler [Format.md] "audio.mp3" 1 "engine diagnostics" fsTxtOnly).2 = false := by
  decide

/-- C1, amended: completion is declared iff the engine exit code is 0 or a
requested subtitle or plaintext artifact file is present on disk after
reconciliation — a requested markdown artifact alone does not count; and on
failure the error carries the captured diagnostic-stream text (or
`Unknown error` when the stream was empty). -/
theorem C1_success_criterion (formats : List Format) (fileName : String)
    (code : Int) (stderr : String) (fs : FS) :
    (exceptOk (closeHandler formats fileName code stderr fs).2 = true ↔
      code = 0 ∨ (Format.srt ∈ formats ∧ fs.srt.isSome = true) ∨
        (Format.txt ∈ formats ∧ fs.txt.isSome = true)) ∧
    (exceptOk (closeHandler formats fileName code stderr fs).2 = false →
      (closeHandler formats fileName code stderr fs).2 =
        Except.error
          ("Transcription failed: " ++ if stderr = "" then "Unknown error" else stderr)) := by
  constructor
  · rw [exceptOk_closeHandler]
    by_cases h0 : code = 0 <;> by_cases h1 : Format.srt ∈ formats <;>
      by_cases h2 : Format.txt ∈ formats <;> simp [h0, h1, h2]
  · intro h
    rw [closeHandler_snd] at h ⊢
    rw [exceptOk_resolveOutcome] at h
    unfold resolveOutcome
    rw [h]
    simp

/-- C1, witness: a subtitle-only job with exit code 1 and no artifacts on
disk fails with the captured diagnostics in the error. -/
theorem C1_success_criterion_witness :
    (closeHandler [Format.srt] "audio.mp3" 1 "diag text" emptyFS).2 =
      Except.error
        ("Transcription failed: " ++ if ("diag text" : String) = "" then "Unknown error" else "diag text") :=
  (C1_success_criterion [Format.srt] "audio.mp3" 1 "diag text" emptyFS).2 (by decide)

/-! ## C3 — produced artifacts vs requested formats -/

/-- C3, counterexample.  The claim says the successful result's artifact set
contains exactly the requested formats whose underlying data exists, with
markdown present only when plaintext was obtainable.  Concrete refutation:
a markdown-only job over a directory holding a stale markdown file — the
engine produced no plaintext (`fsStaleMd.txt = none`), yet the successful
result includes the markdown artifact (the stale file). -/
theorem C3_counterexample :
    (closeHandler [Format.md] "audio.mp3" 0 "" fsStaleMd).2 =
      Except.ok { srtPath := false, txtPath := false, mdPath := true } ∧
    fsStaleMd.txt.isSome = false := by
  decide

/-- C3, amended: provided no markdown file pre-exists at the markdown output
path, a successful result's artifact set contains exactly the formats that
were requested and whose underlying data was on disk — subtitle/plaintext
when the engine-side file exists, markdown exactly when plaintext was
obtainable — and never an unrequested format. -/
theorem C3_produced_artifacts (formats : List Format) (fileName : String)
    (code : Int) (stderr : String) (fs : FS) (hmd : fs.md = none) (r : TResult)
    (h : (closeHandler formats fileName code stderr fs).2 = Except.ok r) :
    (r.srtPath = true ↔ Format.srt ∈ formats ∧ fs.srt.isSome = true) ∧
    (r.txtPath = true ↔ Format.txt ∈ formats ∧ fs.txt.isSome = true) ∧
    (r.mdPath = true ↔ Format.md ∈ formats ∧ fs.txt.isSome = true) := by
  rw [closeHandler_snd] at h
  have hr := resolveOutcome_ok_eq _ _ _ _ _ h
  subst hr
  by_cases h1 : Format.srt ∈ formats <;> by_cases h2 : Format.txt ∈ formats <;>
    by_cases h3 : Format.md ∈ formats <;>
      simp [cleanup_srt, cleanup_txt, cleanup_md, synthesizeMd_srt, synthesizeMd_txt,
        synthesizeMd_md_isSome, hmd, h1, h2, h3]

/-- C3, witness: requesting subtitle+markdown over a run that produced
subtitle and plaintext yields exactly the subtitle and markdown artifacts. -/
theorem C3_produced_artifacts_witness :
    (({ srtPath := true, txtPath := false, mdPath := true } : TResult).srtPath = true ↔
      Format.srt ∈ [Format.srt, Format.md] ∧ fsSrtTxt.srt.isSome = true) ∧
    (({ srtPath := true, txtPath := false, mdPath := true } : TResult).txtPath = true ↔
      Format.txt ∈ [Format.srt, Format.md] ∧ fsSrtTxt.txt.isSome = true) ∧
    (({ srtPath := true, txtPath := false, mdPath := true } : TResult).mdPath = true ↔
      Format.md ∈ [Format.srt, Format.md] ∧ fsSrtTxt.txt.isSome = true) :=
  C3_produced_artifacts [Format.srt, Format.md] "audio.mp3" 0 "" fsSrtTxt rfl
    { srtPath := true, txtPath := false, mdPath := true } (by decide)

/-! ## C4 — empty requested-format set -/

/-- C4, counterexample.  The claim says a job with an empty format set
behaves as if the set were `{subtitle}`: subtitle requested from the engine,
retained on disk, and returned.  Concrete refutation: with an empty format
list the engine is indeed asked for `srt`, but after a successful exit the
produced subtitle file has been deleted by the cleanup pass and the result
names no artifacts at all. -/
theorem C4_counterexample :
    outputFormat [] = "srt" ∧
    fsSrtOnly.srt.isSome = true ∧
    (closeHandler [] "audio.mp3" 0 "" fsSrtOnly).1.srt = none ∧
    (closeHandler [] "audio.mp3" 0 "" fsSrtOnly).2 =
      Except.ok { srtPath := false, txtPath := false, mdPath := false } := by
  decide

/-- C4, amended: with an empty format list the engine is asked for the
subtitle format, but reconciliation deletes any subtitle file and a
successful result names no artifacts; the `{subtitle}` defaulting happens
one layer up, in the renderer's `getSelectedFormats`, which never submits
an empty set. -/
theorem C4_empty_formats (fileName : String) (code : Int) (stderr : String) (fs : FS) :
    outputFormat [] = "srt" ∧
    (closeHandler [] fileName code stderr fs).1.srt = none ∧
    (∀ r, (closeHandler [] fileName code stderr fs).2 = Except.ok r →
      r = { srtPath := false, txtPath := false, mdPath := false }) ∧
    (∀ a b c, getSelectedFormats a b c ≠ []) := by
  refine ⟨rfl, ?_, ?_, ?_⟩
  · rw [closeHandler_fst_srt]; simp
  · intro r h
    rw [closeHandler_snd] at h
    have hr := resolveOutcome_ok_eq _ _ _ _ _ h
    subst hr
    simp
  · intro a b c
    unfold getSelectedFormats
    cases a <;> cases b <;> cases c <;> simp

/-- C4, witness: concrete instance of the amended behavior for a successful
empty-format run over a produced subtitle file. -/
theorem C4_empty_formats_witness :
    outputFormat [] = "srt" ∧
    (closeHandler [] "audio.mp3" 0 "" fsSrtOnly).1.srt = none ∧
    ({ srtPath := false, txtPath := false, mdPath := false } : TResult) =
      { srtPath := false, txtPath := false, mdPath := false } ∧
    getSelectedFormats false false false ≠ [] := by
  obtain ⟨h1, h2, h3, h4⟩ := C4_empty_formats "audio.mp3" 0 "" fsSrtOnly
  exact ⟨h1, h2, h3 _ (by decide), h4 false false false⟩

/-! ## C10 — unconditional deletion at unwanted output paths -/

/-- C10: after every engine run, whatever its exit code and whatever was on
disk beforehand, the close handler leaves nothing at the `.vtt`, `.tsv` and
`.json` paths, nor at the `.srt`/`.txt` path when that format was not
requested — files are selected purely by path, so the statement holds for
arbitrary pre-existing contents `fs`. -/
theorem C10_cleanup_frame (formats : List Format) (fileName : String) (code : Int)
    (stderr : String) (fs : FS) :
    (closeHandler formats fileName code stderr fs).1.vtt = none ∧
    (closeHandler formats fileName code stderr fs).1.tsv = none ∧
    (closeHandler formats fileName code stderr fs).1.json = none ∧
    (Format.srt ∉ formats → (closeHandler formats fileName code stderr fs).1.srt = none) ∧
    (Format.txt ∉ formats → (closeHandler formats fileName code stderr fs).1.txt = none) := by
  refine ⟨rfl, rfl, rfl, ?_, ?_⟩
  · intro h
    rw [closeHandler_fst_srt]
    simp [h]
  · intro h
    rw [closeHandler_fst_txt]
    simp [h]

/-- C10, witness: a markdown-only job with a failing engine over a directory
whose every derived path was already occupied deletes the pre-existing
subtitle, plaintext, caption-timing, tab-separated and structured-data
files. -/
theorem C10_cleanup_frame_witness :
    (closeHandler [Format.md] "audio.mp3" 1 "err" fsPreexisting).1.vtt = none ∧
    (closeHandler [Format.md] "audio.mp3" 1 "err" fsPreexisting).1.tsv = none ∧
    (closeHandler [Format.md] "audio.mp3" 1 "err" fsPreexisting).1.json = none ∧
    (closeHandler [Format.md] "audio.mp3" 1 "err" fsPreexisting).1.srt = none ∧
    (closeHandler [Format.md] "audio.mp3" 1 "err" fsPreexisting).1.txt = none := by
  obtain ⟨h1, h2, h3, h4, h5⟩ := C10_cleanup_frame [Format.md] "audio.mp3" 1 "err" fsPreexisting
  exact ⟨h1, h2, h3, h4 (by decide), h5 (by decide)⟩

/-! ## C5 — rollback of a failed provisioning attempt -/

/-- C5: starting from an absent environment, any call to the provisioner
ends either fully installed (venv python present and engine package
installed, so the cached path check succeeds) or absent again — a failure
in venv creation or package install deletes the venv before the error
propagates (the `whisper-env` parent data directory may remain, but it holds
no installation); and after a failed call the next call takes the
non-cached path, starting installation from scratch. -/
theorem C5_provisioning_rollback (w w2 : EnvWorld) (fs : EnvFS)
    (habs : fs.pythonBin = false ∧ fs.venvDir = false ∧ fs.whisperPkg = false) :
    ((exceptOk (ensureEnvironment w fs).outcome = true ∧
        (ensureEnvironment w fs).fs.pythonBin = true ∧
        (ensureEnvironment w fs).fs.whisperPkg = true) ∨
      (exceptOk (ensureEnvironment w fs).outcome = false ∧
        (ensureEnvironment w fs).fs.venvDir = false ∧
        (ensureEnvironment w fs).fs.pythonBin = false ∧
        (ensureEnvironment w fs).fs.whisperPkg = false)) ∧
    (exceptOk (ensureEnvironment w fs).outcome = false →
      (ensureEnvironment w2 (ensureEnvironment w fs).fs).actions.head? =
        some EnvAction.mkdirWhisperDir) := by
  obtain ⟨p3, ff, vc, pu, pi⟩ := w
  obtain ⟨p3', ff', vc', pu', pi'⟩ := w2
  obtain ⟨wd, vd, pb, wp⟩ := fs
  obtain ⟨h1, h2, h3⟩ := habs
  subst h1; subst h2; subst h3
  revert p3 ff vc pu pi p3' ff' vc' pu' pi' wd
  decide

/-- C5, witness: a package-install failure from an absent state rolls the
venv back, and the following call performs the installation again. -/
theorem C5_provisioning_rollback_witness :
    ((exceptOk (ensureEnvironment envWorldInstallFails envAbsent).outcome = true ∧
        (ensureEnvironment envWorldInstallFails envAbsent).fs.pythonBin = true ∧
        (ensureEnvironment envWorldInstallFails envAbsent).fs.whisperPkg = true) ∨
      (exceptOk (ensureEnvironment envWorldInstallFails envAbsent).outcome = false ∧
        (ensureEnvironment envWorldInstallFails envAbsent).fs.venvDir = false ∧
        (ensureEnvironment envWorldInstallFails envAbsent).fs.pythonBin = false ∧
        (ensureEnvironment envWorldInstallFails envAbsent).fs.whisperPkg = false)) ∧
    (ensureEnvironment envWorldAllOk (ensureEnvironment envWorldInstallFails envAbsent).fs).actions.head? =
      some EnvAction.mkdirWhisperDir :=
  ⟨(C5_provisioning_rollback envWorldInstallFails envWorldAllOk envAbsent ⟨rfl, rfl, rfl⟩).1,
   (C5_provisioning_rollback envWorldInstallFails envWorldAllOk envAbsent ⟨rfl, rfl, rfl⟩).2 (by decide)⟩

/-! ## C7 — idempotence of the provisioner -/

/-- C7: after a successful call, a second call finds the cached resolved
executable on disk (the venv python existence check) and is a pure no-op:
it performs no filesystem action, emits no status, leaves the filesystem
untouched, and returns Ready (`true`) just like the first call — so
installation work happens at most once across the two calls. -/
theorem C7_idempotent (w w2 : EnvWorld) (fs : EnvFS)
    (h : exceptOk (ensureEnvironment w fs).outcome = true) :
    (ensureEnvironment w fs).outcome = Except.ok true ∧
    ensureEnvironment w2 (ensureEnvironment w fs).fs =
      { fs := (ensureEnvironment w fs).fs, outcome := Except.ok true
        actions := [], statuses := [] } := by
  obtain ⟨p3, ff, vc, pu, pi⟩ := w
  obtain ⟨p3', ff', vc', pu', pi'⟩ := w2
  obtain ⟨wd, vd, pb, wp⟩ := fs
  revert h
  revert p3 ff vc pu pi p3' ff' vc' pu' pi' wd vd pb wp
  decide

/-- C7, witness: after a successful first-run installation, a second call —
even in a world where every installation command would now fail — performs
nothing and returns Ready. -/
theorem C7_idempotent_witness :
    (ensureEnvironment envWorldAllOk envAbsent).outcome = Except.ok true ∧
    ensureEnvironment envWorldInstallFails (ensureEnvironment envWorldAllOk envAbsent).fs =
      { fs := (ensureEnvironment envWorldAllOk envAbsent).fs, outcome := Except.ok true
        actions := [], statuses := [] } :=
  C7_idempotent envWorldAllOk envWorldInstallFails envAbsent (by decide)

/-! ## C6 — move semantics of the destination relocation -/

/-- C6: with a destination directory distinct from the engine's working
directory, relocation succeeds iff every named artifact's copy succeeds; on
success each named artifact is moved (present at the destination, original
removed) and the result is returned unchanged; if the copy of an artifact
fails, the overall operation fails and that artifact's original file is
left intact on disk. -/
theorem C6_move_semantics (w : CopyWorld) (r : TResult) (fs : DestFS)
    (hsrc : fs.srcSrt = r.srtPath ∧ fs.srcTxt = r.txtPath ∧ fs.srcMd = r.mdPath) :
    (exceptOk (relocate w r fs).2 = true ↔
      ((r.srtPath = true → w.srtOk = true) ∧ (r.txtPath = true → w.txtOk = true) ∧
        (r.mdPath = true → w.mdOk = true))) ∧
    (exceptOk (relocate w r fs).2 = true →
      (relocate w r fs).2 = Except.ok r ∧
      (r.srtPath = true → (relocate w r fs).1.dstSrt = true ∧ (relocate w r fs).1.srcSrt = false) ∧
      (r.txtPath = true → (relocate w r fs).1.dstTxt = true ∧ (relocate w r fs).1.srcTxt = false) ∧
      (r.mdPath = true → (relocate w r fs).1.dstMd = true ∧ (relocate w r fs).1.srcMd = false)) ∧
    (r.srtPath = true ∧ w.srtOk = false →
      exceptOk (relocate w r fs).2 = false ∧ (relocate w r fs).1.srcSrt = true) ∧
    (r.txtPath = true ∧ w.txtOk = false →
      exceptOk (relocate w r fs).2 = false ∧ (relocate w r fs).1.srcTxt = true) ∧
    (r.mdPath = true ∧ w.mdOk = false →
      exceptOk (relocate w r fs).2 = false ∧ (relocate w r fs).1.srcMd = true) := by
  obtain ⟨ws, wt, wm⟩ := w
  obtain ⟨rs, rt, rm⟩ := r
  obtain ⟨a, b, c, d, e, f⟩ := fs
  obtain ⟨h1, h2, h3⟩ := hsrc
  subst h1; subst h2; subst h3
  cases ws <;> cases wt <;> cases wm <;> cases a <;> cases b <;> cases c <;>
    cases d <;> cases e <;> cases f <;> decide

/-- C6, witness: a failing plaintext copy fails the operation and leaves the
plaintext original intact, while an all-successful relocation moves every
artifact. -/
theorem C6_move_semantics_witness :
    (exceptOk (relocate copyTxtFails allArtifacts destStart).2 = false ∧
      (relocate copyTxtFails allArtifacts destStart).1.srcTxt = true) ∧
    ((relocate copyAllOk allArtifacts destStart).2 = Except.ok allArtifacts ∧
      (relocate copyAllOk allArtifacts destStart).1.dstMd = true ∧
      (relocate copyAllOk allArtifacts destStart).1.srcMd = false) := by
  constructor
  · exact (C6_move_semantics copyTxtFails allArtifacts destStart ⟨rfl, rfl, rfl⟩).2.2.2.1
      ⟨rfl, rfl⟩
  · have h := C6_move_semantics copyAllOk allArtifacts destStart ⟨rfl, rfl, rfl⟩
    have hok : exceptOk (relocate copyAllOk allArtifacts destStart).2 = true :=
      h.1.mpr ⟨fun _ => rfl, fun _ => rfl, fun _ => rfl⟩
    obtain ⟨hres, _, _, hmd⟩ := h.2.1 hok
    exact ⟨hres, (hmd rfl).1, (hmd rfl).2⟩

/-! ## Helper lemmas about the progress event stream -/

theorem engineProgress_mono {p q : ℕ} (h : p ≤ q) :
    engineProgress p ≤ engineProgress q := by
  unfold engineProgress
  have hpq : (p : ℚ) ≤ q := by exact_mod_cast h
  nlinarith

theorem engineProgress_ge (p : ℕ) : 30 ≤ engineProgress p := by
  unfold engineProgress
  have h0 : (0 : ℚ) ≤ (p : ℚ) * 0.65 := by positivity
  linarith

theorem engineProgress_le {p : ℕ} (h : p ≤ 100) : engineProgress p ≤ 95 := by
  unfold engineProgress
  have hp : (p : ℚ) ≤ 100 := by exact_mod_cast h
  nlinarith

theorem engineProgress_ne_100 (p : ℕ) : engineProgress p ≠ 100 := by
  unfold engineProgress
  intro h
  have h13 : (13 : ℚ) * p = 1400 := by
    norm_num at h
    linarith
  have h13' : 13 * p = 1400 := by exact_mod_cast h13
  omega

theorem chain_cons_engine_100 (a : ℚ) (pcts : List ℕ)
    (ha : ∀ q ∈ pcts.head?, a ≤ engineProgress q) (ha100 : a ≤ 100)
    (hmono : List.Chain' (· ≤ ·) pcts) (hle : ∀ p ∈ pcts, p ≤ 100) :
    List.Chain' (· ≤ ·) (a :: (pcts.map engineProgress ++ [100])) := by
  induction pcts generalizing a with
  | nil => simpa using ha100
  | cons p rest ih =>
      rw [List.map_cons, List.cons_append, List.chain'_cons]
      refine ⟨ha p (by simp), ?_⟩
      apply ih
      · intro q hq
        have hpq : p ≤ q := by
          cases rest with
          | nil => simp at hq
          | cons r t =>
              have : r = q := by simpa using hq
              subst this
              exact (List.chain'_cons.mp hmono).1
        exact engineProgress_mono hpq
      · calc engineProgress p ≤ 95 := engineProgress_le (hle p (by simp))
          _ ≤ 100 := by norm_num
      · exact hmono.tail
      · intro x hx
        exact hle x (by simp [hx])

theorem chain_zeros_prepend (env : List String) (L : List ℚ)
    (hL : List.Chain' (· ≤ ·) L) (hhead : ∀ x ∈ L.head?, (0 : ℚ) ≤ x) :
    List.Chain' (· ≤ ·) ((env.map fun _ => (0 : ℚ)) ++ L) := by
  induction env with
  | nil => simpa using hL
  | cons s rest ih =>
      rw [List.map_cons, List.cons_append, List.chain'_cons']
      refine ⟨?_, ih⟩
      intro b hb
      cases rest with
      | nil =>
          simp only [List.map_nil, List.nil_append] at hb
          exact hhead b hb
      | cons s' rest' =>
          have : (0 : ℚ) = b := by simpa using hb
          simp [← this]

theorem progressSeq_completed (env : List String) (pcts : List ℕ) :
    progressSeq (jobEvents env pcts RunKind.completed) =
      (env.map fun _ => (0 : ℚ)) ++ 10 :: 30 :: (pcts.map engineProgress ++ [100]) := by
  simp [progressSeq, jobEvents, engineEvents, List.map_map, Function.comp]

theorem progressSeq_engineFailed (env : List String) (pcts : List ℕ) :
    progressSeq (jobEvents env pcts RunKind.engineFailed) =
      (env.map fun _ => (0 : ℚ)) ++ 10 :: 30 :: (pcts.map engineProgress ++ [0]) := by
  simp [progressSeq, jobEvents, engineEvents, List.map_map, Function.comp]

theorem progressSeq_envFailed (env : List String) (pcts : List ℕ) :
    progressSeq (jobEvents env pcts RunKind.envFailed) =
      (env.map fun _ => (0 : ℚ)) ++ [0, 0] := by
  simp [progressSeq, jobEvents, List.map_map, Function.comp]

theorem jobEvents_relocationFailed (env : List String) (pcts : List ℕ) :
    jobEvents env pcts RunKind.relocationFailed =
      jobEvents env pcts RunKind.completed ++ [{ phase := Phase.failed, progress := 0 }] := by
  simp [jobEvents, List.append_assoc]

/-! ## C2 — monotonicity of the progress stream and the meaning of 100 -/

/-- C2, counterexample.  The claim says every job's emitted progress values
are non-decreasing, and 100 is emitted iff the job terminates Completed.
Both halves fail.  A job with a cached environment and no parsed engine
percentages whose engine fails emits `[10, 30, 0]` — the terminal Failed
event resets progress to 0.  And a job whose engine run succeeds (emitting
100 at whisper.js line 209) but whose destination relocation copy then
throws emits `[10, 30, 100, 0]` — the handler's catch sends a final Failed
event, so the job terminates Failed having emitted 100. -/
theorem C2_counterexample :
    (¬ List.Chain' (· ≤ ·) (progressSeq (jobEvents [] [] RunKind.engineFailed))) ∧
    (100 : ℚ) ∈ progressSeq (jobEvents [] [] RunKind.relocationFailed) ∧
    (jobEvents [] [] RunKind.relocationFailed).getLast? =
      some { phase := Phase.failed, progress := 0 } := by
  refine ⟨?_, ?_, rfl⟩
  · intro h
    rw [show progressSeq (jobEvents [] [] RunKind.engineFailed) = [10, 30, 0] from rfl] at h
    have h1 := (List.chain'_cons.mp h).2
    have h2 := (List.chain'_cons.mp h1).1
    norm_num at h2
  · rw [show progressSeq (jobEvents [] [] RunKind.relocationFailed) = [10, 30, 100, 0] from rfl]
    simp

/-- C2, amended: provided the engine-reported percentages are non-decreasing
and at most 100, a job that completes emits a non-decreasing progress
sequence containing 100.  A job that fails during provisioning or in the
engine run never emits 100, and its event sequence is a non-decreasing
prefix followed by one final Failed event whose progress is 0 (the only
decrease).  But a job whose engine run succeeds and whose destination
relocation copy then throws emits the full completed sequence — including
the 100 of whisper.js line 209 — followed by one final Failed event with
progress 0: so 100 marks the success of artifact reconciliation, not a
Completed terminal state. -/
theorem C2_progress_monotone (envStatuses : List String) (pcts : List ℕ)
    (hmono : List.Chain' (· ≤ ·) pcts) (hle : ∀ p ∈ pcts, p ≤ 100) :
    List.Chain' (· ≤ ·) (progressSeq (jobEvents envStatuses pcts RunKind.completed)) ∧
    (100 : ℚ) ∈ progressSeq (jobEvents envStatuses pcts RunKind.completed) ∧
    (100 : ℚ) ∉ progressSeq (jobEvents envStatuses pcts RunKind.engineFailed) ∧
    (100 : ℚ) ∉ progressSeq (jobEvents envStatuses pcts RunKind.envFailed) ∧
    (∃ pre, jobEvents envStatuses pcts RunKind.engineFailed =
        pre ++ [{ phase := Phase.failed, progress := 0 }] ∧
      List.Chain' (· ≤ ·) (progressSeq pre)) ∧
    jobEvents envStatuses pcts RunKind.relocationFailed =
      jobEvents envStatuses pcts RunKind.completed ++
        [{ phase := Phase.failed, progress := 0 }] ∧
    (100 : ℚ) ∈ progressSeq (jobEvents envStatuses pcts RunKind.relocationFailed) := by
  have hchain30 : List.Chain' (· ≤ ·) ((30 : ℚ) :: (pcts.map engineProgress ++ [100])) :=
    chain_cons_engine_100 30 pcts (fun q _ => engineProgress_ge q) (by norm_num) hmono hle
  have h100c : (100 : ℚ) ∈ progressSeq (jobEvents envStatuses pcts RunKind.completed) := by
    rw [progressSeq_completed]
    simp
  refine ⟨?_, h100c, ?_, ?_, ?_, jobEvents_relocationFailed envStatuses pcts, ?_⟩
  · rw [progressSeq_completed]
    apply chain_zeros_prepend
    · rw [List.chain'_cons]
      exact ⟨by norm_num, hchain30⟩
    · intro x hx
      have h10 : (10 : ℚ) = x := by simpa using hx
      rw [← h10]
      norm_num
  · rw [progressSeq_engineFailed]
    intro h
    rcases List.mem_append.mp h with h1 | h1
    · obtain ⟨s, _, h0⟩ := List.mem_map.mp h1
      norm_num at h0
    · rcases List.mem_cons.mp h1 with h2 | h2
      · norm_num at h2
      rcases List.mem_cons.mp h2 with h3 | h3
      · norm_num at h3
      rcases List.mem_append.mp h3 with h4 | h4
      · obtain ⟨p, hp, hp2⟩ := List.mem_map.mp h4
        exact engineProgress_ne_100 p hp2
      · simp at h4
  · rw [progressSeq_envFailed]
    intro h
    rcases List.mem_append.mp h with h1 | h1
    · obtain ⟨s, _, h0⟩ := List.mem_map.mp h1
      norm_num at h0
    · simp at h1
  · refine ⟨(envStatuses.map fun _ => { phase := Phase.provisioning, progress := 0 }) ++
      { phase := Phase.starting, progress := 10 } ::
      { phase := Phase.engineStart, progress := 30 } :: engineEvents pcts, ?_, ?_⟩
    · simp [jobEvents]
    · have hsub : List.Chain' (· ≤ ·) ((30 : ℚ) :: pcts.map engineProgress) := by
        refine hchain30.sublist ?_
        rw [show (30 : ℚ) :: (pcts.map engineProgress ++ [100]) =
          ((30 : ℚ) :: pcts.map engineProgress) ++ [100] from rfl]
        exact List.sublist_append_left _ _
      rw [show progressSeq ((envStatuses.map fun _ =>
            ({ phase := Phase.provisioning, progress := 0 } : Event)) ++
          { phase := Phase.starting, progress := 10 } ::
          { phase := Phase.engineStart, progress := 30 } :: engineEvents pcts) =
        (envStatuses.map fun _ => (0 : ℚ)) ++
          10 :: 30 :: pcts.map engineProgress from by
          simp [progressSeq, engineEvents, List.map_map, Function.comp]]
      apply chain_zeros_prepend
      · rw [List.chain'_cons]
        exact ⟨by norm_num, hsub⟩
      · intro x hx
        have h10 : (10 : ℚ) = x := by simpa using hx
        rw [← h10]
        norm_num
  · rw [jobEvents_relocationFailed]
    unfold progressSeq
    rw [List.map_append]
    exact List.mem_append_left _ h100c

/-- C2, witness: with provisioning statuses and engine percentages 40 then
80, a completed job's progress sequence is non-decreasing and reaches 100,
the engine-failed run never emits 100, and the relocation-failed run does
emit 100 before its final Failed event. -/
theorem C2_progress_monotone_witness :
    List.Chain' (· ≤ ·)
      (progressSeq (jobEvents ["Setting up Python environment (first run)..."] [40, 80]
        RunKind.completed)) ∧
    (100 : ℚ) ∈ progressSeq (jobEvents ["Setting up Python environment (first run)..."] [40, 80]
      RunKind.completed) ∧
    (100 : ℚ) ∉ progressSeq (jobEvents ["Setting up Python environment (first run)..."] [40, 80]
      RunKind.engineFailed) ∧
    (100 : ℚ) ∈ progressSeq (jobEvents ["Setting up Python environment (first run)..."] [40, 80]
      RunKind.relocationFailed) := by
  have h := C2_progress_monotone ["Setting up Python environment (first run)..."] [40, 80]
    (List.chain'_cons.mpr ⟨by norm_num, List.chain'_singleton 80⟩) (by decide)
  exact ⟨h.1, h.2.1, h.2.2.1, h.2.2.2.2.2.2⟩

/-! ## C8 — progress banding -/

/-- C8, counterexample.  The claim says events during environment
check/provisioning carry progress in the 10–30 band.  Concrete refutation:
on a first run the provisioner's status messages are relayed with
`progress: 0` — the job's first event is a provisioning-phase event whose
progress 0 is below 10. -/
theorem C8_counterexample :
    (jobEvents ["Setting up Python environment (first run)..."] [] RunKind.completed).head? =
      some { phase := Phase.provisioning, progress := 0 } ∧
    ¬ ((10 : ℚ) ≤ 0) := by
  exact ⟨rfl, by norm_num⟩

/-- C8, amended: provisioning-phase events carry progress 0 (not 10–30);
the post-provisioning acceptance event carries 10; the engine-spawn event
carries 30; each engine-execution event carries exactly `30 + 0.65·p` for
some reported percentage `p` of the run, hence lies in the 30–95 band when
`p ≤ 100`; no event is emitted during artifact finalization, and the
terminal event of a completed job carries 100. -/
theorem C8_progress_banding (envStatuses : List String) (pcts : List ℕ)
    (hle : ∀ p ∈ pcts, p ≤ 100) :
    ∀ e ∈ jobEvents envStatuses pcts RunKind.completed,
      (e.phase = Phase.provisioning → e.progress = 0) ∧
      (e.phase = Phase.starting → e.progress = 10) ∧
      (e.phase = Phase.engineStart → e.progress = 30) ∧
      (e.phase = Phase.engine →
        30 ≤ e.progress ∧ e.progress ≤ 95 ∧ ∃ p ∈ pcts, e.progress = engineProgress p) ∧
      (e.phase = Phase.completed → e.progress = 100) := by
  intro e he
  have he2 : e ∈ (envStatuses.map fun _ =>
      ({ phase := Phase.provisioning, progress := 0 } : Event)) ++
      { phase := Phase.starting, progress := 10 } ::
      { phase := Phase.engineStart, progress := 30 } ::
      (engineEvents pcts ++ [{ phase := Phase.completed, progress := 100 }]) := he
  rcases List.mem_append.mp he2 with h1 | h1
  · obtain ⟨s, _, h0⟩ := List.mem_map.mp h1
    rw [← h0]
    exact ⟨fun _ => rfl, fun h => Phase.noConfusion h, fun h => Phase.noConfusion h,
      fun h => Phase.noConfusion h, fun h => Phase.noConfusion h⟩
  rcases List.mem_cons.mp h1 with h2 | h2
  · rw [h2]
    exact ⟨fun h => Phase.noConfusion h, fun _ => rfl, fun h => Phase.noConfusion h,
      fun h => Phase.noConfusion h, fun h => Phase.noConfusion h⟩
  rcases List.mem_cons.mp h2 with h3 | h3
  · rw [h3]
    exact ⟨fun h => Phase.noConfusion h, fun h => Phase.noConfusion h, fun _ => rfl,
      fun h => Phase.noConfusion h, fun h => Phase.noConfusion h⟩
  rcases List.mem_append.mp h3 with h4 | h4
  · obtain ⟨p, hp, hp2⟩ := List.mem_map.mp h4
    rw [← hp2]
    exact ⟨fun h => Phase.noConfusion h, fun h => Phase.noConfusion h,
      fun h => Phase.noConfusion h,
      fun _ => ⟨engineProgress_ge p, engineProgress_le (hle p hp), p, hp, rfl⟩,
      fun h => Phase.noConfusion h⟩
  · have h5 := List.mem_singleton.mp h4
    rw [h5]
    exact ⟨fun h => Phase.noConfusion h, fun h => Phase.noConfusion h,
      fun h => Phase.noConfusion h, fun h => Phase.noConfusion h, fun _ => rfl⟩

/-- C8, witness: for reported percentage 50 the engine-execution event
carries exactly `30 + 0.65·50` and sits inside the 30–95 band. -/
theorem C8_progress_banding_witness :
    30 ≤ engineProgress 50 ∧ engineProgress 50 ≤ 95 ∧
      ∃ p ∈ [50], engineProgress 50 = engineProgress p := by
  have h := C8_progress_banding [] [50] (by decide)
    { phase := Phase.engine, progress := engineProgress 50 }
    (by simp [jobEvents, engineEvents])
  exact h.2.2.2.1 rfl

/-! ## C9 — concurrent calls to the provisioner -/

/-- C9, counterexample.  The claim says concurrent callers are serialized so
at most one provisioning attempt runs, all callers awaiting a single
in-flight attempt.  Concrete refutation: the interleaving in which both
tasks run their cached check (both see no environment) before either
resumes from the `mkdir` await makes both run the full install block —
two provisioning attempts, the second one after the first has already
completed the installation. -/
theorem C9_counterexample :
    (runSched [false, true, false, true] initConcState).installCount = 2 ∧
    (runSched [false, true, false, true] initConcState).taskA = TaskPC.done true ∧
    (runSched [false, true, false, true] initConcState).taskB = TaskPC.done true := by
  decide

/-- C9, amended: `ensureEnvironment` has no in-flight-attempt sharing and no
lock.  A caller whose cached check runs while the executable already exists
returns immediately without installing; but a caller already suspended past
its cached check runs its own full installation attempt when it resumes,
regardless of whether another caller has installed the environment in the
meantime — so overlapping first callers are not serialized into one
attempt. -/
theorem C9_no_serialization (s : ConcState) :
    (s.taskA = TaskPC.start → s.pythonBin = true →
      schedStep s false = { s with taskA := TaskPC.done false }) ∧
    (s.taskB = TaskPC.start → s.pythonBin = true →
      schedStep s true = { s with taskB := TaskPC.done false }) ∧
    (s.taskA = TaskPC.awaitMkdir →
      schedStep s false =
        { s with taskA := TaskPC.done true, pythonBin := true
                 installCount := s.installCount + 1 }) ∧
    (s.taskB = TaskPC.awaitMkdir →
      schedStep s true =
        { s with taskB := TaskPC.done true, pythonBin := true
                 installCount := s.installCount + 1 }) := by
  obtain ⟨py, ic, tA, tB⟩ := s
  refine ⟨?_, ?_, ?_, ?_⟩
  · intro hA hpy
    simp only at hA hpy
    subst hA; subst hpy
    simp [schedStep, stepTask]
  · intro hB hpy
    simp only at hB hpy
    subst hB; subst hpy
    simp [schedStep, stepTask]
  · intro hA
    simp only at hA
    subst hA
    simp [schedStep, stepTask]
  · intro hB
    simp only at hB
    subst hB
    simp [schedStep, stepTask]

/-- C9, witness: a task whose cached check runs after another task completed
the installation returns without installing, while a task already suspended
at the await re-installs even though the environment now exists. -/
theorem C9_no_serialization_witness :
    schedStep { pythonBin := true, installCount := 1
                taskA := TaskPC.start, taskB := TaskPC.done true } false =
      { pythonBin := true, installCount := 1
        taskA := TaskPC.done false, taskB := TaskPC.done true } ∧
    schedStep { pythonBin := true, installCount := 1
                taskA := TaskPC.awaitMkdir, taskB := TaskPC.done true } false =
      { pythonBin := true, installCount := 2
        taskA := TaskPC.done true, taskB := TaskPC.done true } :=
  ⟨(C9_no_serialization ⟨true, 1, TaskPC.start, TaskPC.done true⟩).1 rfl rfl,
   (C9_no_serialization ⟨true, 1, TaskPC.awaitMkdir, TaskPC.done true⟩).2.2.1 rfl⟩

end Resonance
